import Mathlib

/-!
Shallow embedding of the EdgeX maker-order trading bot (`runbot.py`):
the inventory risk manager, the volatility gate, the order retry loop,
the fill handler, the reconciliation check and the wait-time throttle.
Prices, sizes and timestamps are modelled as rationals; the dynamic
dict-shaped exchange responses are modelled as explicit sum/structure
types; exceptions are modelled as explicit failure variants.
-/

namespace PerpBot

/-- Python's `str.lower`, restricted to the ASCII side strings the bot
compares (computable by the kernel, unlike `String.toLower`). -/
def strLower (s : String) : String := ⟨s.data.map Char.toLower⟩

/-- Python's `str.upper`, restricted to the ASCII side strings the bot
compares. -/
def strUpper (s : String) : String := ⟨s.data.map Char.toUpper⟩

/-- `TradingConfig` dataclass from `runbot.py`. -/
structure TradingConfig where
  contract_id : String
  quantity : ℚ
  take_profit_percentage : ℚ
  direction : String
  max_orders : ℕ
  wait_time : ℚ
deriving DecidableEq

/-- `TradingConfig.close_order_side`: `'buy' if direction == "sell" else 'sell'`. -/
def TradingConfig.close_order_side (c : TradingConfig) : String :=
  if c.direction = "sell" then "buy" else "sell"

/-! ## LowCostInventoryManager (runbot.py lines 78-123)

The manager's thresholds are `safe = 2*base`, `caution = 4*base`,
`danger = 6*base`, `emergency = 8*base`; `base` is the configured
order quantity.  All functions below take the base quantity as their
first argument. -/

/-- `LowCostInventoryManager.get_trading_strategy`: classify `|inventory|`
against the 2x/4x/6x layers with strict `<`; everything at or above the
6x layer is `'pause'`. -/
def get_trading_strategy (base inv : ℚ) : String :=
  if |inv| < 2 * base then "normal"
  else if |inv| < 4 * base then "reduce_same_side"
  else if |inv| < 6 * base then "opposite_only"
  else "pause"

/-- `LowCostInventoryManager.get_inventory_direction_bias`:
`'sell'` when the inventory is above `2*base`, `'buy'` when below
`-2*base`, otherwise `None`. -/
def get_inventory_direction_bias (base inv : ℚ) : Option String :=
  if inv > base * 2 then some "sell"
  else if inv < -(base * 2) then some "buy"
  else none

/-- `LowCostInventoryManager.should_emergency_hedge`:
`abs(current_inventory) > inventory_layers['emergency']`, i.e. a
strict comparison against `8*base`. -/
def should_emergency_hedge (base inv : ℚ) : Bool :=
  |inv| > 8 * base

/-- `LowCostInventoryManager.get_hedge_batch_size`:
`min(base_quantity * 3, abs(current_inventory))`. -/
def get_hedge_batch_size (base inv : ℚ) : ℚ :=
  min (base * 3) |inv|

/-- The five-valued risk tier of the specification's data model. -/
inductive RiskTier where
  | NORMAL
  | REDUCE_SAME_SIDE
  | OPPOSITE_ONLY
  | PAUSE
  | EMERGENCY
deriving DecidableEq

/-- Map the strategy strings returned by `get_trading_strategy` to the
specification's tier names. -/
def tierOfStrategy (s : String) : RiskTier :=
  if s = "normal" then .NORMAL
  else if s = "reduce_same_side" then .REDUCE_SAME_SIDE
  else if s = "opposite_only" then .OPPOSITE_ONLY
  else .PAUSE

/-- The combined risk-tier classification: the run loop consults
`should_emergency_hedge` first (`emergency_inventory_management` runs
before direction selection), and otherwise the tier is
`get_trading_strategy`'s layer. -/
def classify (base inv : ℚ) : RiskTier :=
  if should_emergency_hedge base inv then .EMERGENCY
  else tierOfStrategy (get_trading_strategy base inv)

/-- C1 (counterexample): with `base = 1` the net position `8` sits exactly at
the `8x` threshold; its absolute value is `≥ 8*base`, yet the classification
is `PAUSE`, not `EMERGENCY`, because `should_emergency_hedge` compares with a
strict `>`. -/
theorem C1_emergency_boundary_counterexample :
    |(8 : ℚ)| ≥ 8 * 1 ∧ classify 1 8 ≠ RiskTier.EMERGENCY := by
  constructor
  · norm_num
  · norm_num [classify, should_emergency_hedge, get_trading_strategy]
    simp [tierOfStrategy]

/-- C1 (amended): for `base > 0` the classification is a pure function of
`|inv|` against the ordered thresholds `2*base < 4*base < 6*base < 8*base`:
strict `<` at the 2x/4x/6x boundaries (a value exactly at one of those
thresholds falls in the more severe tier), but `EMERGENCY` only strictly
above `8*base`, so a value exactly at `8*base` falls in `PAUSE`. -/
theorem C1_risk_tier_classification (base inv : ℚ) (hq : 0 < base) :
    (classify base inv = RiskTier.NORMAL ↔ |inv| < 2 * base) ∧
    (classify base inv = RiskTier.REDUCE_SAME_SIDE ↔
      2 * base ≤ |inv| ∧ |inv| < 4 * base) ∧
    (classify base inv = RiskTier.OPPOSITE_ONLY ↔
      4 * base ≤ |inv| ∧ |inv| < 6 * base) ∧
    (classify base inv = RiskTier.PAUSE ↔
      6 * base ≤ |inv| ∧ |inv| ≤ 8 * base) ∧
    (classify base inv = RiskTier.EMERGENCY ↔ 8 * base < |inv|) := by
  unfold classify should_emergency_hedge get_trading_strategy tierOfStrategy
  split_ifs with h1 h2 h3 h4 <;>
    simp only [decide_eq_true_eq, not_lt] at h1 <;>
    refine ⟨?_, ?_, ?_, ?_, ?_⟩ <;>
    constructor <;>
    simp_all <;>
    first
      | linarith
      | (intro h; exfalso; first | linarith | (rcases h with ⟨ha, hb⟩; linarith))
      | (intro h; linarith)

/-- C1 witness: concrete instance of the amended classification at
`base = 1`, `inv = -5` (tier `OPPOSITE_ONLY`). -/
theorem C1_risk_tier_classification_witness :
    (0 : ℚ) < 1 ∧ classify 1 (-5) = RiskTier.OPPOSITE_ONLY := by
  refine ⟨by norm_num, ?_⟩
  exact (C1_risk_tier_classification 1 (-5) (by norm_num)).2.2.1.mpr (by norm_num)

/-! ## Reconciliation check (`_log_status_periodically`, runbot.py 1459-1554) -/

/-- A tracked active order, as consumed by the reconciliation pass:
only the side string and the size matter for the exposure sums. -/
structure ActiveOrder where
  side : String
  size : ℚ

/-- Sum of the sizes of the active orders whose uppercased side is `BUY`
(the loop over `active_orders` at runbot.py 1473-1494). -/
def active_buy_amount (orders : List ActiveOrder) : ℚ :=
  orders.foldl (fun acc o => if strUpper o.side = "BUY" then acc + o.size else acc) 0

/-- Sum of the sizes of the active orders whose uppercased side is `SELL`. -/
def active_sell_amount (orders : List ActiveOrder) : ℚ :=
  orders.foldl (fun acc o => if strUpper o.side = "SELL" then acc + o.size else acc) 0

/-- `active_net_exposure = active_buy_amount - active_sell_amount`. -/
def active_net_exposure (orders : List ActiveOrder) : ℚ :=
  active_buy_amount orders - active_sell_amount orders

/-- `expected_active_exposure = -current_inventory` (runbot.py 1535). -/
def expected_active_exposure (current_inventory : ℚ) : ℚ :=
  -current_inventory

/-- Outcome of a reconciliation pass: whether shutdown was requested, and
how many corrective orders were submitted on the way. -/
structure ReconcileOutcome where
  shutdown_requested : Bool
  corrective_orders : ℕ
deriving DecidableEq

/-- The reconciliation core of `_log_status_periodically` (runbot.py
1533-1547): the mismatch `|active_net_exposure - expected_active_exposure|`
is compared with `2 * quantity`; the fatal branch only logs, sets
`shutdown_requested` and returns - it never submits an order. -/
def reconcile_check (orders : List ActiveOrder) (current_inventory quantity : ℚ) :
    ReconcileOutcome :=
  let exposure_mismatch :=
    |active_net_exposure orders - expected_active_exposure current_inventory|
  if exposure_mismatch > 2 * quantity then ⟨true, 0⟩ else ⟨false, 0⟩

/-- C2: the reconciliation pass requests shutdown exactly when
`|activeNetExposure - expectedActiveExposure| > 2 * baseQty`, and on
either path it places no corrective order. -/
theorem C2_reconciliation_shutdown_iff (orders : List ActiveOrder)
    (current_inventory quantity : ℚ) :
    ((reconcile_check orders current_inventory quantity).shutdown_requested = true ↔
      |active_net_exposure orders - expected_active_exposure current_inventory| >
        2 * quantity) ∧
    (reconcile_check orders current_inventory quantity).corrective_orders = 0 := by
  unfold reconcile_check
  dsimp only
  split_ifs with h <;> simp_all

/-! ## Volatility gate (`check_btc_volatility_safe` and
`_check_volatility_fallback`, runbot.py 1096-1202) -/

/-- An entry of `btc_price_history`: `{'price': ..., 'timestamp': ...}`. -/
structure PriceSample where
  price : ℚ
  timestamp : ℚ

/-- Python's `max` over a nonempty list (0 on the empty list, which the
call sites never pass). -/
def listMax : List ℚ → ℚ
  | [] => 0
  | h :: t => t.foldl max h

/-- Python's `min` over a nonempty list (0 on the empty list, which the
call sites never pass). -/
def listMin : List ℚ → ℚ
  | [] => 0
  | h :: t => t.foldl min h

/-- What `_check_volatility_fallback` observes from
`client.quote.get_24_hour_quote`: the call raised, or the response shape
was not `code = SUCCESS` with a nonempty data list, or a parsed
`priceChangePercent` value. -/
inductive QuoteResult where
  | exn
  | badShape
  | ok (priceChangePercent : ℚ)

/-- `_check_volatility_fallback` (runbot.py 1175-1202): reject only when a
well-shaped 24h quote reports `|priceChangePercent| > 0.03`; on a raised
exception or an unexpected shape, allow trading. -/
def check_volatility_fallback : QuoteResult → Bool
  | .exn => true
  | .badShape => true
  | .ok pct => if |pct| > 3 / 100 then false else true

/-- The samples of the rolling buffer with `timestamp > now - 60`
(runbot.py 1116-1120). -/
def recent_price_samples (history : List PriceSample) (now : ℚ) : List PriceSample :=
  history.filter (fun r => r.timestamp > now - 60)

/-- `check_btc_volatility_safe` (runbot.py 1096-1173). `realtime_exn`
models an exception raised anywhere in the realtime-amplitude
computation: the `except` branch defers to the 24h fallback. With no
history, or with fewer than 2 samples in the last 60 seconds, the 24h
fallback decides. Otherwise the 1-minute amplitude `high - low` and its
percentage of the latest price decide. -/
def check_btc_volatility_safe (history : List PriceSample) (now max_amplitude : ℚ)
    (realtime_exn : Bool) (quote : QuoteResult) : Bool :=
  if realtime_exn then check_volatility_fallback quote
  else if history.isEmpty then check_volatility_fallback quote
  else
    let recent := recent_price_samples history now
    if recent.length < 2 then check_volatility_fallback quote
    else
      let prices := recent.map (·.price)
      let high := listMax prices
      let low := listMin prices
      let latest := prices.getLastD 0
      let amplitude := |high - low|
      let pct_change := |high - low| / latest * 100
      if amplitude > max_amplitude ∨ pct_change > 1 / 2 then false else true

theorem listMin_le_initial (t : List ℚ) (a : ℚ) : t.foldl min a ≤ a := by
  induction t generalizing a with
  | nil => simp
  | cons h t ih =>
      simpa using le_trans (ih (min a h)) (min_le_left a h)

theorem initial_le_listMax (t : List ℚ) (a : ℚ) : a ≤ t.foldl max a := by
  induction t generalizing a with
  | nil => simp
  | cons h t ih =>
      simpa using le_trans (le_max_left a h) (ih (max a h))

theorem listMin_le_listMax (l : List ℚ) (hl : l ≠ []) : listMin l ≤ listMax l := by
  match l with
  | [] => exact absurd rfl hl
  | h :: t =>
      simp only [listMin, listMax]
      exact le_trans (listMin_le_initial t h) (initial_le_listMax t h)

theorem recent_price_samples_idem (history : List PriceSample) (now : ℚ) :
    recent_price_samples (recent_price_samples history now) now =
      recent_price_samples history now := by
  unfold recent_price_samples
  rw [List.filter_filter]
  simp

/-- C3: the volatility check depends only on the samples of the last 60
seconds; with at least 2 recent samples (and a positive latest price) it
returns `false` exactly when the amplitude `max - min` exceeds
`max_amplitude` or exceeds 0.5% of the latest price; with fewer than 2
recent samples the 24h fallback decides, and on a well-shaped quote the
fallback rejects exactly when the 24h change exceeds 3% in absolute
value. -/
theorem C3_volatility_gate (history : List PriceSample) (now max_amplitude : ℚ)
    (quote : QuoteResult) :
    (check_btc_volatility_safe history now max_amplitude false quote =
      check_btc_volatility_safe (recent_price_samples history now) now max_amplitude
        false quote) ∧
    ((recent_price_samples history now).length < 2 →
      check_btc_volatility_safe history now max_amplitude false quote =
        check_volatility_fallback quote) ∧
    (∀ pct : ℚ, check_volatility_fallback (QuoteResult.ok pct) = false ↔
      |pct| > 3 / 100) ∧
    (2 ≤ (recent_price_samples history now).length →
      0 < ((recent_price_samples history now).map (·.price)).getLastD 0 →
      (check_btc_volatility_safe history now max_amplitude false quote = false ↔
        listMax ((recent_price_samples history now).map (·.price)) -
            listMin ((recent_price_samples history now).map (·.price)) >
          max_amplitude ∨
        (listMax ((recent_price_samples history now).map (·.price)) -
            listMin ((recent_price_samples history now).map (·.price))) /
            ((recent_price_samples history now).map (·.price)).getLastD 0 >
          1 / 200)) := by
  refine ⟨?_, ?_, ?_, ?_⟩
  · by_cases hhist : history = []
    · subst hhist
      simp [recent_price_samples, check_btc_volatility_safe]
    · by_cases hrec : recent_price_samples history now = []
      · simp [check_btc_volatility_safe, hrec, hhist]
      · have hidem := recent_price_samples_idem history now
        simp [check_btc_volatility_safe, hhist, hrec, hidem]
  · intro hlen
    by_cases hhist : history = []
    · subst hhist
      simp [check_btc_volatility_safe]
    · simp [check_btc_volatility_safe, hhist, hlen]
  · intro pct
    simp only [check_volatility_fallback]
    split_ifs with h <;> simp_all
  · intro hlen hlat
    have hrec : recent_price_samples history now ≠ [] := by
      intro h
      rw [h] at hlen
      simp at hlen
    have hhist : history ≠ [] := by
      intro h
      subst h
      simp [recent_price_samples] at hrec
    have hP : (recent_price_samples history now).map (·.price) ≠ [] := by
      simpa using hrec
    have hamp :
        |listMax ((recent_price_samples history now).map (·.price)) -
            listMin ((recent_price_samples history now).map (·.price))| =
          listMax ((recent_price_samples history now).map (·.price)) -
            listMin ((recent_price_samples history now).map (·.price)) :=
      abs_of_nonneg (sub_nonneg.mpr (listMin_le_listMax _ hP))
    have hempty : history.isEmpty = false := by simpa using hhist
    have hlen2 : ¬((recent_price_samples history now).length < 2) := by omega
    set A := listMax ((recent_price_samples history now).map (·.price)) -
      listMin ((recent_price_samples history now).map (·.price)) with hA
    set L := ((recent_price_samples history now).map (·.price)).getLastD 0 with hL
    simp only [check_btc_volatility_safe, hempty, hamp, Bool.false_eq_true, if_false,
      ← hA, ← hL]
    rw [if_neg hlen2]
    split_ifs with hcond
    · simp only [eq_self_iff_true, true_iff]
      rcases hcond with h1 | h2
      · exact Or.inl h1
      · exact Or.inr (by linarith)
    · push_neg at hcond
      constructor
      · intro hfalse
        simp at hfalse
      · rintro (h1 | h2)
        · exact absurd h1 (not_lt.mpr hcond.1)
        · exact absurd h2 (not_lt.mpr (by linarith [hcond.2]))


/-- C3 witness: two samples 100 and 200 inside the last minute give
amplitude 100 above the 50 limit, so the check reports unsafe. -/
theorem C3_volatility_gate_witness :
    check_btc_volatility_safe [⟨100, 10⟩, ⟨200, 30⟩] 50 50 false (QuoteResult.ok 0) =
      false := by
  have h := (C3_volatility_gate [⟨100, 10⟩, ⟨200, 30⟩] 50 50 (QuoteResult.ok 0)).2.2.2
  have hrec : recent_price_samples [⟨100, 10⟩, ⟨200, 30⟩] (50 : ℚ) =
      [⟨100, 10⟩, ⟨200, 30⟩] := by
    unfold recent_price_samples
    norm_num [List.filter]
  rw [hrec] at h
  refine (h (by norm_num) (by norm_num [List.getLastD])).mpr ?_
  norm_num [listMax, listMin, List.getLastD]

/-! ## Order retry loop (`place_open_order`, runbot.py 585-732)

Each iteration of the Python loop performs a fresh order-book read,
computes a maker price from it, submits the post-only order, and then
reads the order status back.  The per-iteration exchange interaction is
abstracted into one `AttemptResult` per attempt index: the order id the
submission produced, the maker price used, and the status read back
(`CANCELED` means the post-only order was maker-rejected). -/

/-- What attempt `i` of the retry loop observes from the exchange. -/
structure AttemptResult where
  order_id : String
  price : ℚ
  status : String

/-- Result of `place_open_order`: the `{'status': 'ok', 'data': ...}`
dictionary with order id, price and status, or the structured
`{'status': 'error', 'err_msg': ...}` dictionary. -/
inductive OpenOrderResult where
  | ok (order_id : String) (price : ℚ) (status : String)
  | error (err_msg : String)
deriving DecidableEq

/-- The retry loop of `place_open_order`.  `rc` is `retry_count`, `fuel`
is the number of loop iterations the `while retry_count < max_retries`
guard still allows (callers keep `rc + fuel = 15`), and `submitted`
counts submissions so far (each preceded by a fresh book read).  On a
`CANCELED` status the loop retries while `retry_count < max_retries - 1`
and otherwise reports the rejection; an `OPEN`/`PARTIALLY_FILLED`/
`FILLED` status is a success; any other status is an error. -/
def open_order_go (resp : ℕ → AttemptResult) : ℕ → ℕ → ℕ → OpenOrderResult × ℕ
  | _, 0, submitted => (.error "Max retries exceeded", submitted)
  | rc, fuel + 1, submitted =>
      let a := resp rc
      if a.status = "CANCELED" then
        if rc < 15 - 1 then
          open_order_go resp (rc + 1) fuel (submitted + 1)
        else
          (.error "Order rejected after 15 attempts", submitted + 1)
      else if a.status = "OPEN" ∨ a.status = "PARTIALLY_FILLED" ∨ a.status = "FILLED" then
        (.ok a.order_id a.price a.status, submitted + 1)
      else
        (.error ("Unexpected order status: " ++ a.status), submitted + 1)

/-- `place_open_order` with `max_retries = 15`, `retry_count = 0`:
returns the structured result together with the number of submission
attempts that were made. -/
def place_open_order (resp : ℕ → AttemptResult) : OpenOrderResult × ℕ :=
  open_order_go resp 0 15 0

theorem open_order_go_succeeds (resp : ℕ → AttemptResult) (N : ℕ)
    (hN : N ≤ 14)
    (hc : ∀ i, i < N → (resp i).status = "CANCELED")
    (ha : (resp N).status = "OPEN" ∨ (resp N).status = "PARTIALLY_FILLED" ∨
      (resp N).status = "FILLED") :
    ∀ fuel rc submitted, rc + fuel = 15 → rc ≤ N →
      open_order_go resp rc fuel submitted =
        (.ok (resp N).order_id (resp N).price (resp N).status,
          submitted + (N + 1 - rc)) := by
  intro fuel
  induction fuel with
  | zero => intro rc submitted h15 hrcN; omega
  | succ fuel ih =>
      intro rc submitted h15 hrcN
      rcases eq_or_lt_of_le hrcN with heq | hlt
      · subst heq
        have hnc : ¬((resp rc).status = "CANCELED") := by
          rcases ha with h | h | h <;> rw [h] <;> simp
        simp only [open_order_go, if_neg hnc, if_pos ha]
        congr 1
        omega
      · have hcan : (resp rc).status = "CANCELED" := hc rc hlt
        have hrc14 : rc < 15 - 1 := by omega
        simp only [open_order_go, if_pos hcan, if_pos hrc14]
        rw [ih (rc + 1) (submitted + 1) (by omega) (by omega)]
        congr 1
        omega

theorem open_order_go_exhausts (resp : ℕ → AttemptResult)
    (hc : ∀ i, i < 15 → (resp i).status = "CANCELED") :
    ∀ fuel rc submitted, rc + fuel = 15 → 1 ≤ fuel →
      open_order_go resp rc fuel submitted =
        (.error "Order rejected after 15 attempts", submitted + fuel) := by
  intro fuel
  induction fuel with
  | zero => intro rc submitted _ h1; omega
  | succ fuel ih =>
      intro rc submitted h15 _
      have hcan : (resp rc).status = "CANCELED" := hc rc (by omega)
      rcases Nat.eq_zero_or_pos fuel with hf0 | hfpos
      · subst hf0
        have hrc : ¬(rc < 15 - 1) := by omega
        simp only [open_order_go, if_pos hcan, if_neg hrc]
      · have hrc : rc < 15 - 1 := by omega
        simp only [open_order_go, if_pos hcan, if_pos hrc]
        rw [ih (rc + 1) (submitted + 1) (by omega) (by omega)]
        congr 1
        omega

/-- C4: if the first `N ≤ 14` submissions come back `CANCELED` and
submission `N + 1` is accepted (status `OPEN`, `PARTIALLY_FILLED` or
`FILLED`), `place_open_order` returns the success dictionary with that
attempt's order id, price and status after `N + 1` submissions; if all
15 submissions come back `CANCELED`, it returns the structured failure
after exactly 15 submissions.  The embedding is a total function, so
neither path raises or terminates the process. -/
theorem C4_open_order_retry (resp : ℕ → AttemptResult) (N : ℕ) :
    (N ≤ 14 →
      (∀ i, i < N → (resp i).status = "CANCELED") →
      ((resp N).status = "OPEN" ∨ (resp N).status = "PARTIALLY_FILLED" ∨
        (resp N).status = "FILLED") →
      place_open_order resp =
        (.ok (resp N).order_id (resp N).price (resp N).status, N + 1)) ∧
    ((∀ i, i < 15 → (resp i).status = "CANCELED") →
      place_open_order resp = (.error "Order rejected after 15 attempts", 15)) := by
  constructor
  · intro hN hc ha
    unfold place_open_order
    rw [open_order_go_succeeds resp N hN hc ha 15 0 0 (by omega) (by omega)]
    norm_num
  · intro hc
    unfold place_open_order
    rw [open_order_go_exhausts resp hc 15 0 0 (by omega) (by omega)]

/-- C4 witness: an exchange that maker-rejects the first 3 submissions
and opens the 4th yields success after 4 attempts. -/
theorem C4_open_order_retry_witness :
    place_open_order
        (fun i => if i < 3 then ⟨"x", 0, "CANCELED"⟩ else ⟨"oid7", 100, "OPEN"⟩) =
      (.ok "oid7" 100 "OPEN", 4) := by
  have h :=
    (C4_open_order_retry
      (fun i => if i < 3 then ⟨"x", 0, "CANCELED"⟩ else ⟨"oid7", 100, "OPEN"⟩) 3).1
  rw [h (by omega) (by intro i hi; simp [hi]) (by norm_num)]
  norm_num

/-! ## Fill handling and take-profit close (`_handle_order_result`,
runbot.py 1266-1365, and `place_close_order`, runbot.py 734-870) -/

/-- The order fields `_handle_order_result` reads back from
`get_order_info`. -/
structure OrderInfo where
  status : String
  price : ℚ
  side : String
  cumFillSize : ℚ

/-- A close-order request: the side, limit price and size that
`_handle_order_result` passes to `place_close_order`. -/
structure CloseRequest where
  side : String
  price : ℚ
  size : ℚ
deriving DecidableEq

/-- The take-profit computation duplicated in the FILLED branch
(runbot.py 1282-1298) and the partial-fill branch (runbot.py 1334-1349):
close opposite to the actual filled side - `sell` at
`price * (1 + take_profit)` after a `buy` fill, `buy` at
`price * (1 - take_profit)` after a `sell` fill - falling back to the
configured close side only when the reported side is neither. -/
def take_profit_close (cfg : TradingConfig) (filled_price : ℚ)
    (actual_open_side : String) : String × ℚ :=
  if actual_open_side = "buy" then
    ("sell", filled_price * (1 + cfg.take_profit_percentage))
  else if actual_open_side = "sell" then
    ("buy", filled_price * (1 - cfg.take_profit_percentage))
  else
    (cfg.close_order_side,
      if cfg.close_order_side = "sell" then
        filled_price * (1 + cfg.take_profit_percentage)
      else
        filled_price * (1 - cfg.take_profit_percentage))

/-- `_handle_order_result` reduced to its close-order decision: the
returned flag is the function's boolean result, paired with the close
request (if any) it submits.  The FILLED branch (price must be positive)
closes `config.quantity`; the OPEN/PARTIALLY_FILLED branch cancels and
then closes the filled amount `cumFillSize` when it is positive; other
statuses return `False` and place no close. -/
def handle_order_result (cfg : TradingConfig) (info : OrderInfo) :
    Bool × Option CloseRequest :=
  if info.status = "FILLED" then
    if info.price > 0 then
      let sp := take_profit_close cfg info.price (strLower info.side)
      (true, some ⟨sp.1, sp.2, cfg.quantity⟩)
    else (true, none)
  else if info.status = "OPEN" ∨ info.status = "PARTIALLY_FILLED" then
    if info.cumFillSize > 0 then
      let sp := take_profit_close cfg info.price (strLower info.side)
      (true, some ⟨sp.1, sp.2, info.cumFillSize⟩)
    else (true, none)
  else (false, none)

/-- Python's `round` (banker's rounding, half to even) on a rational. -/
def roundHalfEven (x : ℚ) : ℤ :=
  if x - ⌊x⌋ < 1 / 2 then ⌊x⌋
  else if x - ⌊x⌋ > 1 / 2 then ⌊x⌋ + 1
  else if Even ⌊x⌋ then ⌊x⌋ else ⌊x⌋ + 1

/-- `round_price_to_step` (runbot.py 32-43): round the price to the
nearest multiple of the step (the Python decimal re-rounding is a
float-representation repair with no rational content). -/
def round_price_to_step (price step : ℚ) : ℚ :=
  if step ≤ 0 then price else roundHalfEven (price / step) * step

/-- A submitted limit order: the arguments `place_close_order` passes to
`create_limit_order`. -/
structure OrderSubmission where
  side : String
  size : ℚ
  price : ℚ
  post_only : Bool

/-- The submission core of `place_close_order` (runbot.py 771-799): the
requested price is pushed to the maker side of the book when it would
cross, rounded to the step, and the order is always submitted
post-only with the requested side and size. -/
def close_order_submission (best_bid best_ask price_delta step : ℚ)
    (quantity price : ℚ) (side : String) : OrderSubmission :=
  let adjusted_price :=
    if strLower side = "sell" then
      (if price ≤ best_bid then best_bid + price_delta else price)
    else if strLower side = "buy" then
      (if price ≥ best_ask then best_ask - price_delta else price)
    else price
  ⟨side, quantity, round_price_to_step adjusted_price step, true⟩

/-- C5: a monitored order found FILLED at a positive price yields a close
request on the side opposite to the actual filled side - `sell` at
`P * (1 + takeProfit)` for a `buy` fill, `buy` at `P * (1 - takeProfit)`
for a `sell` fill - for every configuration, hence independently of the
configured default direction; the full fill closes `config.quantity`,
the partial fill closes the reported `cumFillSize`; and every close
submission is post-only with the requested side and size. -/
theorem C5_take_profit_close_order (cfg : TradingConfig) (info : OrderInfo) :
    (info.status = "FILLED" → info.price > 0 → strLower info.side = "buy" →
      handle_order_result cfg info =
        (true, some ⟨"sell", info.price * (1 + cfg.take_profit_percentage),
          cfg.quantity⟩)) ∧
    (info.status = "FILLED" → info.price > 0 → strLower info.side = "sell" →
      handle_order_result cfg info =
        (true, some ⟨"buy", info.price * (1 - cfg.take_profit_percentage),
          cfg.quantity⟩)) ∧
    ((info.status = "OPEN" ∨ info.status = "PARTIALLY_FILLED") →
      info.cumFillSize > 0 → strLower info.side = "buy" →
      handle_order_result cfg info =
        (true, some ⟨"sell", info.price * (1 + cfg.take_profit_percentage),
          info.cumFillSize⟩)) ∧
    ((info.status = "OPEN" ∨ info.status = "PARTIALLY_FILLED") →
      info.cumFillSize > 0 → strLower info.side = "sell" →
      handle_order_result cfg info =
        (true, some ⟨"buy", info.price * (1 - cfg.take_profit_percentage),
          info.cumFillSize⟩)) ∧
    (∀ bb ba pd st q p s,
      (close_order_submission bb ba pd st q p s).post_only = true ∧
      (close_order_submission bb ba pd st q p s).side = s ∧
      (close_order_submission bb ba pd st q p s).size = q) := by
  refine ⟨?_, ?_, ?_, ?_, ?_⟩
  · intro h1 h2 h3
    simp [handle_order_result, take_profit_close, h1, h2, h3]
  · intro h1 h2 h3
    simp [handle_order_result, take_profit_close, h1, h2, h3]
  · intro h1 h2 h3
    have hnf : ¬(info.status = "FILLED") := by
      rcases h1 with h | h <;> rw [h] <;> simp
    simp [handle_order_result, take_profit_close, hnf, h1, h2, h3]
  · intro h1 h2 h3
    have hnf : ¬(info.status = "FILLED") := by
      rcases h1 with h | h <;> rw [h] <;> simp
    simp [handle_order_result, take_profit_close, hnf, h1, h2, h3]
  · intro bb ba pd st q p s
    refine ⟨rfl, rfl, rfl⟩

/-- C5 witness: with a 0.3% take-profit, a BUY filled at 200 yields a
SELL close request at `200 * 1.003` sized to the configured quantity. -/
theorem C5_take_profit_close_order_witness :
    handle_order_result
        ⟨"10000001", 1 / 100, 3 / 1000, "buy", 50, 30⟩
        ⟨"FILLED", 200, "BUY", 0⟩ =
      (true, some ⟨"sell", 200 * (1 + 3 / 1000), 1 / 100⟩) := by
  have h :=
    (C5_take_profit_close_order
      ⟨"10000001", 1 / 100, 3 / 1000, "buy", 50, 30⟩ ⟨"FILLED", 200, "BUY", 0⟩).1
  exact h rfl (by norm_num) (by rfl)

/-! ## Order-update push handler and fill monitoring
(`order_update_handler`, runbot.py 331-395, and
`_place_and_monitor_open_order`, runbot.py 1230-1264) -/

/-- An order object of an `ORDER_UPDATE` push event. -/
structure PushOrder where
  contractId : String
  id : String
  status : String
  side : String

/-- `order_update_handler` reduced to its effect on the open-order fill
signal: `true` exactly when the handler sets `order_filled_event`.  The
handler looks only at the first order of the event; it checks the
contract id, classifies the order as CLOSE when its side equals the
uppercased configured close side (OPEN otherwise), and sets the signal
when an OPEN-classified order reports status `FILLED`.  The tracked
order id is never consulted. -/
def order_update_sets_fill (cfg : TradingConfig) (event : String)
    (orders : List PushOrder) : Bool :=
  if event = "ORDER_UPDATE" then
    match orders with
    | [] => false
    | o :: _ =>
        if o.contractId ≠ cfg.contract_id then false
        else
          let order_type :=
            if o.side = strUpper cfg.close_order_side then "CLOSE" else "OPEN"
          if o.status = "FILLED" ∧ order_type = "OPEN" then true else false
  else false

/-- The bounded wait `asyncio.wait_for(self.order_filled_event.wait(),
timeout=10)` of `_place_and_monitor_open_order` (runbot.py 1255). -/
def fill_wait_timeout : ℚ := 10

/-- `_place_and_monitor_open_order` after a successful placement
(runbot.py 1252-1260): wait on the fill signal bounded by
`fill_wait_timeout` (a timeout is swallowed), then hand off to
`_handle_order_result`, which re-polls the order status directly; the
decision is computed from the polled order state whether or not the
signal arrived, so `signal_arrived` only affects timing. -/
def place_and_monitor_result (cfg : TradingConfig) (signal_arrived : Bool)
    (polled : OrderInfo) : Bool × Option CloseRequest :=
  handle_order_result cfg polled

/-- C6 (counterexample): with default direction `buy` (close side
`sell`), an `ORDER_UPDATE` for order id `999` - a different order than a
tracked id such as `123` - on the configured contract with side `BUY`
and status `FILLED` sets the fill signal: the handler never consults the
tracked order id, so events for other orders do change the signal. -/
theorem C6_fill_signal_counterexample :
    order_update_sets_fill ⟨"10000001", 1 / 100, 3 / 1000, "buy", 50, 30⟩
        "ORDER_UPDATE" [⟨"10000001", "999", "FILLED", "BUY"⟩] = true ∧
    ("999" : String) ≠ "123" := by
  constructor
  · rfl
  · decide

/-- C6 (amended): the handler sets the open-order fill signal exactly
when an `ORDER_UPDATE` event's first order is on the configured contract
with status `FILLED` and a side different from the uppercased configured
close side - irrespective of the order id; the controller's wait is
bounded by the 10-second `fill_wait_timeout` and its decision is taken
from the direct status poll whether or not the signal arrived. -/
theorem C6_fill_signal (cfg : TradingConfig) (event : String)
    (orders : List PushOrder) (polled : OrderInfo) :
    (order_update_sets_fill cfg event orders = true ↔
      event = "ORDER_UPDATE" ∧ ∃ o rest, orders = o :: rest ∧
        o.contractId = cfg.contract_id ∧ o.status = "FILLED" ∧
        o.side ≠ strUpper cfg.close_order_side) ∧
    (∀ s₁ s₂ : Bool, place_and_monitor_result cfg s₁ polled =
      place_and_monitor_result cfg s₂ polled) ∧
    fill_wait_timeout = 10 := by
  refine ⟨?_, fun s₁ s₂ => rfl, rfl⟩
  rcases orders with _ | ⟨o, rest⟩
  · simp [order_update_sets_fill]
  · by_cases he : event = "ORDER_UPDATE"
    · by_cases hcid : o.contractId = cfg.contract_id
      · by_cases hst : o.status = "FILLED"
        · by_cases hside : o.side = strUpper cfg.close_order_side
          · simp [order_update_sets_fill, he, hcid, hst, hside]
          · simp [order_update_sets_fill, he, hcid, hst, hside]
        · simp [order_update_sets_fill, he, hcid, hst]
      · simp [order_update_sets_fill, he, hcid]
    · simp [order_update_sets_fill, he]

/-! ## Wait-time throttle (`_calculate_wait_time`, runbot.py 1204-1228) -/

/-- The cool-down bands of `_calculate_wait_time` (runbot.py 1216-1223):
the cool-down before the next open derived from the ratio
`n / max_orders` of active close orders to the configured maximum. -/
def cool_down_time (n max_orders : ℕ) (wait : ℚ) : ℚ :=
  if (n : ℚ) / (max_orders : ℚ) ≥ 2 / 3 then 2 * wait
  else if (n : ℚ) / (max_orders : ℚ) ≥ 1 / 3 then wait
  else if (n : ℚ) / (max_orders : ℚ) ≥ 1 / 6 then wait / 2
  else wait / 4

/-- `_calculate_wait_time` (runbot.py 1204-1228): return 0 (place now)
when the active-close count dropped since the last check; sleep 1 second
when the count reached `max_orders`; otherwise place now exactly when
the banded cool-down has already elapsed since the last open. -/
def calculate_wait_time (n last_close max_orders : ℕ) (wait now last_open : ℚ) : ℚ :=
  if n < last_close then 0
  else if n ≥ max_orders then 1
  else if now - last_open > cool_down_time n max_orders wait then 0 else 1

/-- C7 (counterexample): with `max_orders = 6` and base wait 4, one
active close order gives ratio 1/6 and a cool-down of `4 / 2 = 2` -
half the base wait, which is none of the claimed bands (quarter, full,
double, or immediate). -/
theorem C7_wait_bands_counterexample :
    cool_down_time 1 6 4 = 4 / 2 ∧
    cool_down_time 1 6 4 ≠ 4 / 4 ∧ cool_down_time 1 6 4 ≠ 4 ∧
    cool_down_time 1 6 4 ≠ 2 * 4 ∧ cool_down_time 1 6 4 ≠ 0 := by
  norm_num [cool_down_time]

/-- C7 (amended): below `max_orders` the cool-down derived from the
ratio of active close orders to the maximum takes one of exactly four
bands - 1/4x, 1/2x, 1x or 2x the base wait - and is non-decreasing in
the number of outstanding close orders (the immediate-0 return arises
only when the count has dropped since the last check, not as a ratio
band). -/
theorem C7_wait_time_throttle (n₁ n₂ max_orders : ℕ) (wait : ℚ)
    (hmax : 0 < max_orders) (hw : 0 ≤ wait) :
    (cool_down_time n₁ max_orders wait = wait / 4 ∨
     cool_down_time n₁ max_orders wait = wait / 2 ∨
     cool_down_time n₁ max_orders wait = wait ∨
     cool_down_time n₁ max_orders wait = 2 * wait) ∧
    (n₁ ≤ n₂ → cool_down_time n₁ max_orders wait ≤ cool_down_time n₂ max_orders wait) := by
  constructor
  · unfold cool_down_time
    split_ifs <;> tauto
  · intro hn
    have hr : (n₁ : ℚ) / (max_orders : ℚ) ≤ (n₂ : ℚ) / (max_orders : ℚ) := by
      gcongr
    unfold cool_down_time
    split_ifs <;> linarith

/-- C7 witness: with `max_orders = 6`, base wait 4, the cool-down for 1
active close order does not exceed the cool-down for 5. -/
theorem C7_wait_time_throttle_witness :
    cool_down_time 1 6 4 ≤ cool_down_time 5 6 4 :=
  (C7_wait_time_throttle 1 5 6 4 (by norm_num) (by norm_num)).2 (by norm_num)

/-! ## Emergency inventory management
(`emergency_inventory_management`, runbot.py 1065-1094) -/

/-- The hedge order placed by the emergency path, if any. -/
inductive HedgeAction where
  | none
  | hedge (direction : String) (size : ℚ) (aggressive : Bool)
deriving DecidableEq

/-- `emergency_inventory_management`: no hedge unless
`should_emergency_hedge`; otherwise one aggressive hedge of batch size
`get_hedge_batch_size`, selling when the net position is positive and
buying otherwise. -/
def emergency_inventory_management (base inv : ℚ) : HedgeAction :=
  if should_emergency_hedge base inv then
    .hedge (if inv > 0 then "sell" else "buy") (get_hedge_batch_size base inv) true
  else .none

/-- C8: above `8 * base` the emergency check fires and a single
aggressive hedge of size `min(3 * base, |inv|)` is placed in the
inventory-reducing direction, while the cycle's trading strategy is
`pause` so no normal open order is placed that cycle; at or below the
`8x` threshold no emergency hedge is placed. -/
theorem C8_emergency_hedge (base inv : ℚ) (hq : 0 < base) :
    (|inv| > 8 * base →
      should_emergency_hedge base inv = true ∧
      (inv > 0 → emergency_inventory_management base inv =
        HedgeAction.hedge "sell" (min (base * 3) |inv|) true) ∧
      (inv < 0 → emergency_inventory_management base inv =
        HedgeAction.hedge "buy" (min (base * 3) |inv|) true) ∧
      get_trading_strategy base inv = "pause") ∧
    (¬(|inv| > 8 * base) → emergency_inventory_management base inv = HedgeAction.none) := by
  constructor
  · intro h
    have hb : should_emergency_hedge base inv = true := by
      simpa [should_emergency_hedge] using h
    refine ⟨hb, ?_, ?_, ?_⟩
    · intro hpos
      simp [emergency_inventory_management, hb, hpos, get_hedge_batch_size]
    · intro hneg
      simp [emergency_inventory_management, hb, not_lt.mpr hneg.le,
        get_hedge_batch_size]
    · unfold get_trading_strategy
      rw [if_neg (by linarith), if_neg (by linarith), if_neg (by linarith)]
  · intro h
    have hb : should_emergency_hedge base inv = false := by
      simpa [should_emergency_hedge] using h
    simp [emergency_inventory_management, hb]

/-- C8 witness: base 1, net position 9 (above the 8x threshold) places
an aggressive sell hedge of size `min(3, 9) = 3`. -/
theorem C8_emergency_hedge_witness :
    emergency_inventory_management 1 9 = HedgeAction.hedge "sell" 3 true := by
  have h := ((C8_emergency_hedge 1 9 (by norm_num)).1 (by norm_num)).2.1 (by norm_num)
  simpa using h

/-! ## Inventory read (`get_current_inventory`, runbot.py 945-971) and
direction selection (`_get_trade_direction_with_inventory_control`,
runbot.py 1367-1418) -/

/-- A position entry of the `get_account_positions` response. -/
structure PositionEntry where
  contractId : String
  openSize : ℚ
  side : String

/-- What `get_current_inventory` observes from `get_account_positions`:
the query raised (the wrapper catches and returns `{}`), the response
was malformed (no `data` key or empty `positionList`), or a list of
position entries. -/
inductive PositionsResponse where
  | exn
  | malformed
  | ok (positions : List PositionEntry)

/-- `get_current_inventory`: `0.0` on a failed query, malformed data or
no entry for the configured contract; otherwise the signed `openSize` of
the first matching entry (negated for a `SHORT` side). -/
def get_current_inventory (cfg : TradingConfig) (resp : PositionsResponse) : ℚ :=
  match resp with
  | .exn => 0
  | .malformed => 0
  | .ok positions =>
      match positions.find? (fun p => p.contractId = cfg.contract_id) with
      | none => 0
      | some p => if p.side = "SHORT" then -p.openSize else p.openSize

/-- `_get_trade_direction_with_inventory_control`: direction per
strategy string; `coin` models the `random.random() < 0.5` draw of the
`reduce_same_side` branch. -/
def get_trade_direction_with_inventory_control (cfg : TradingConfig)
    (base inv : ℚ) (strategy : String) (coin : Bool) : Option String :=
  if strategy = "normal" then some cfg.direction
  else if strategy = "reduce_same_side" then
    match get_inventory_direction_bias base inv with
    | some b => if coin then some b else some cfg.direction
    | none => some cfg.direction
  else if strategy = "opposite_only" then
    match get_inventory_direction_bias base inv with
    | some b => some b
    | none => none
  else if strategy = "pause" then none
  else some cfg.direction

/-- C9: a raised, malformed or contract-less position response makes the
inventory read return exactly 0; inventory 0 classifies as the `normal`
strategy (for any positive base quantity), and the `normal` strategy
trades the configured default direction - indistinguishable from a
genuinely flat position. -/
theorem C9_inventory_error_reads_zero (cfg : TradingConfig) (base : ℚ)
    (hq : 0 < base) :
    get_current_inventory cfg PositionsResponse.exn = 0 ∧
    get_current_inventory cfg PositionsResponse.malformed = 0 ∧
    (∀ positions : List PositionEntry,
      (∀ p ∈ positions, p.contractId ≠ cfg.contract_id) →
      get_current_inventory cfg (PositionsResponse.ok positions) = 0) ∧
    get_trading_strategy base 0 = "normal" ∧
    (∀ coin : Bool, get_trade_direction_with_inventory_control cfg base 0
      (get_trading_strategy base 0) coin = some cfg.direction) := by
  have hstrat : get_trading_strategy base 0 = "normal" := by
    unfold get_trading_strategy
    rw [if_pos (by simpa using by linarith)]
  refine ⟨rfl, rfl, ?_, hstrat, ?_⟩
  · intro positions hnone
    have hfind : positions.find?
        (fun p => decide (p.contractId = cfg.contract_id)) = none := by
      rw [List.find?_eq_none]
      intro p hp
      simpa using hnone p hp
    simp [get_current_inventory, hfind]
  · intro coin
    rw [hstrat]
    simp [get_trade_direction_with_inventory_control]

/-- C9 witness: a positions list containing only another contract reads
as inventory 0 and classifies as `normal` with base 1. -/
theorem C9_inventory_error_reads_zero_witness :
    get_current_inventory ⟨"10000001", 1 / 100, 3 / 1000, "buy", 50, 30⟩
        (PositionsResponse.ok [⟨"20000001", 5, "LONG"⟩]) = 0 ∧
    get_trading_strategy 1 0 = "normal" := by
  have h := C9_inventory_error_reads_zero
    ⟨"10000001", 1 / 100, 3 / 1000, "buy", 50, 30⟩ 1 (by norm_num)
  exact ⟨h.2.2.1 _ (by decide), h.2.2.2.1⟩

/-- C10: the volatility gate fails open: a realtime-path exception defers
to the 24h fallback, the fallback allows trading when the quote request
raised or returned an unexpected shape, and in particular a total
market-data failure still returns `true` (trading allowed). -/
theorem C10_volatility_fails_open (history : List PriceSample)
    (now max_amplitude : ℚ) (quote : QuoteResult) :
    (check_btc_volatility_safe history now max_amplitude true quote =
      check_volatility_fallback quote) ∧
    check_volatility_fallback QuoteResult.exn = true ∧
    check_volatility_fallback QuoteResult.badShape = true ∧
    check_btc_volatility_safe history now max_amplitude true QuoteResult.exn = true := by
  refine ⟨?_, rfl, rfl, ?_⟩ <;>
    simp [check_btc_volatility_safe, check_volatility_fallback]

end PerpBot
